import Mathlib

/-!
Shallow embedding of the two components of the scorpion planner that the
claims concern:

* `pdbs::PatternCollectionGeneratorFilteredSystematic` and its helpers
  (src/src/search/pdbs/pattern_collection_generator_filtered_systematic.cc),
* `cost_saturation::SaturatedCostPartitioningOnlineHeuristic`
  (src/src/search/cost_saturation/saturated_cost_partitioning_online_heuristic.cc).

C++ `int` is modelled as `Int` with the 32-bit maximum made explicit where the
code checks it; `std::vector` becomes `List` with `getD`/`set` access, and the
external collaborators of the two files (rng, stdlib sort, cost-partitioning
objects, pattern evaluator) are modelled as explicit parameters or, where the
spec pins them down, as definitions marked as modelled from the spec.
-/

/-- Numeric limit used by the code through numeric_limits, INF and INT_MAX. -/
def INTMAX : Int := 2147483647

namespace scorpion

/-! ## Basic list helpers shared by the embedding -/

/-- Reading past the end of a list yields the default. -/
theorem getD_of_len_le {α : Type} : ∀ (l : List α) (i : Nat) (d : α),
    l.length ≤ i → l.getD i d = d
  | [], _, _, _ => rfl
  | _ :: l, i + 1, d, h => getD_of_len_le l i d (Nat.le_of_succ_le_succ h)
  | _ :: _, 0, _, h => absurd h (by simp)

/-- Writing back the value just read leaves the list unchanged. -/
theorem set_getD_self {α : Type} : ∀ (l : List α) (i : Nat) (d : α),
    i < l.length → l.set i (l.getD i d) = l
  | [], i, _, h => absurd h (by simp)
  | a :: l, 0, d, _ => rfl
  | a :: l, i + 1, d, h => by
      simpa [List.set] using set_getD_self l i d (Nat.lt_of_succ_lt_succ h)

/-! ## PatternOrder and scoring functions
(pattern_collection_generator_filtered_systematic.cc, lines 56-125 and 682-700) -/

/-- The 18 `PatternOrder` values of the `order` option. -/
inductive PatternOrder
  | ORIGINAL | RANDOM | REVERSE
  | PDB_SIZE_UP | PDB_SIZE_DOWN
  | CG_SUM_UP | CG_SUM_DOWN
  | CG_MIN_UP | CG_MIN_DOWN
  | CG_MAX_UP | CG_MAX_DOWN
  | NEW_VAR_PAIRS_UP | NEW_VAR_PAIRS_DOWN
  | ACTIVE_OPS_UP | ACTIVE_OPS_DOWN
  | ALT_TWO
  | ACTIVE_OPS_UP_CG_MIN_DOWN | CG_MIN_DOWN_ACTIVE_OPS_UP
  deriving DecidableEq

/-- Modelled from the spec: `TaskInfo` of pattern_evaluator.h (not under src/);
only its operator count and the `operator_affects_pattern` test are used by the
ordering code. -/
structure TaskInfo where
  numOperators : Nat
  affectsPattern : List Nat → Nat → Bool

/-- Modelled from the spec: `utils::is_product_within_limit` (utils/math.h is
not under src/): whether `factor1 * factor2 ≤ limit`, computed without
overflow. -/
def is_product_within_limit (factor1 factor2 limit : Int) : Bool :=
  factor1 * factor2 ≤ limit

/-- Loop of `get_pdb_size` (lines 56-68): multiply up the domain sizes of the
pattern variables, returning -1 as soon as the running product would exceed
INT_MAX. -/
def get_pdb_size_go (domain_sizes : List Int) : Int → List Nat → Int
  | size, [] => size
  | size, v :: vs =>
      if is_product_within_limit size (domain_sizes.getD v 0) INTMAX = true then
        get_pdb_size_go domain_sizes (size * domain_sizes.getD v 0) vs
      else -1

/-- `get_pdb_size` (lines 56-68). -/
def get_pdb_size (domain_sizes : List Int) (pattern : List Nat) : Int :=
  get_pdb_size_go domain_sizes 1 pattern

/-- `get_sum` (lines 70-77): sum of the variable ids of the pattern. -/
def get_sum (pattern : List Nat) : Int :=
  pattern.foldl (fun s v => s + (v : Int)) 0

/-- `get_min` (lines 79-86): minimum variable id, starting from INT_MAX. -/
def get_min (pattern : List Nat) : Int :=
  pattern.foldl (fun r v => min r (v : Int)) INTMAX

/-- `get_max` (lines 88-95): maximum variable id, starting from -1. -/
def get_max (pattern : List Nat) : Int :=
  pattern.foldl (fun r v => max r (v : Int)) (-1)

/-- Inner loop of `get_num_new_var_pairs`: pairs of `var1` with the later
pattern entries. -/
def count_new_pairs_from (used_var_pairs : List (List Bool)) (var1 : Nat)
    (rest : List Nat) : Int :=
  rest.foldl
    (fun c var2 =>
      if (used_var_pairs.getD var1 []).getD var2 false = true then c else c + 1)
    0

/-- `get_num_new_var_pairs` (lines 97-112): number of ordered position pairs of
the pattern whose variable pair is not yet marked used. -/
def get_num_new_var_pairs : List Nat → List (List Bool) → Int
  | [], _ => 0
  | v :: rest, used_var_pairs =>
      count_new_pairs_from used_var_pairs v rest +
        get_num_new_var_pairs rest used_var_pairs

/-- `get_num_active_ops` (lines 114-125): count of operators affecting the
pattern. -/
def get_num_active_ops (pattern : List Nat) (task_info : TaskInfo) : Int :=
  (List.range task_info.numOperators).foldl
    (fun c op => if task_info.affectsPattern pattern op = true then c + 1 else c)
    0

/-- `compute_score` (lines 174-201). The final branch is ABORT in the code and
unreachable for the order types the callers pass. -/
def compute_score (pattern : List Nat) (order_type : PatternOrder)
    (task_info : TaskInfo) (domains : List Int)
    (used_var_pairs : List (List Bool)) : Int :=
  if order_type = .PDB_SIZE_UP ∨ order_type = .PDB_SIZE_DOWN then
    get_pdb_size domains pattern
  else if order_type = .CG_SUM_UP ∨ order_type = .CG_SUM_DOWN then
    get_sum pattern
  else if order_type = .CG_MIN_UP ∨ order_type = .CG_MIN_DOWN then
    get_min pattern
  else if order_type = .CG_MAX_UP ∨ order_type = .CG_MAX_DOWN then
    get_max pattern
  else if order_type = .NEW_VAR_PAIRS_UP ∨ order_type = .NEW_VAR_PAIRS_DOWN then
    get_num_new_var_pairs pattern used_var_pairs
  else if order_type = .ACTIVE_OPS_UP ∨ order_type = .ACTIVE_OPS_DOWN then
    get_num_active_ops pattern task_info
  else 0

/-! ## Random shuffle and the sort model -/

/-- Swap two (in-range) positions of a list, as std::swap on vector cells. -/
def list_swap (l : List Nat) (i j : Nat) : List Nat :=
  (l.set i (l.getD j 0)).set j (l.getD i 0)

/-- Modelled from the spec: `utils::RandomNumberGenerator::shuffle` (utils/rng.h
is not under src/). Fisher-Yates: for i from n-1 down to 1, draw j uniformly
from [0, i+1) and swap positions i and j. The rng is a stream `draw` of
naturals read at increasing indices; the draw for bound m is taken modulo m. -/
def shuffle_go (draw : Nat → Nat) : Nat → List Nat → Nat → List Nat × Nat
  | 0, l, ridx => (l, ridx)
  | i + 1, l, ridx =>
      shuffle_go draw i (list_swap l (i + 1) (draw ridx % (i + 2))) (ridx + 1)

/-- Shuffle of a whole list; returns the list and the advanced rng index. -/
def shuffle (draw : Nat → Nat) (ridx : Nat) (l : List Nat) : List Nat × Nat :=
  shuffle_go draw (l.length - 1) l ridx

/-- Insertion step of the sort model: place `a` before the first element not
strictly below it under the key. -/
def insert_by_key {α K : Type} [LinearOrder K] (key : α → K) (a : α) :
    List α → List α
  | [] => [a]
  | b :: l => if key b < key a then b :: insert_by_key key a l else a :: b :: l

/-- Model of std::sort with comparator `key i < key j`: a stable insertion
sort, one admissible refinement of the std::sort contract (which leaves the
relative order of equivalent elements unspecified). -/
def sort_by_key {α K : Type} [LinearOrder K] (key : α → K) : List α → List α
  | [] => []
  | a :: l => insert_by_key key a (sort_by_key key l)

/-! ## compute_pattern_order (lines 203-272) -/

/-- The scores vector built at lines 250-257, indexed by pattern id. -/
def scores_for (patterns : List (List Nat)) (order_type : PatternOrder)
    (task_info : TaskInfo) (domains : List Int)
    (used_var_pairs : List (List Bool)) : List Int :=
  (List.range patterns.length).map
    (fun pid => compute_score (patterns.getD pid []) order_type task_info
      domains used_var_pairs)

/-- The (active_ops, -cg_min) or (-cg_min, active_ops) pairs built at lines
227-242 for the two lexicographic composite orders. -/
def pairs_for (patterns : List (List Nat)) (order_type : PatternOrder)
    (task_info : TaskInfo) (domains : List Int)
    (used_var_pairs : List (List Bool)) : List (Int × Int) :=
  (List.range patterns.length).map
    (fun pid =>
      let a := compute_score (patterns.getD pid []) .ACTIVE_OPS_UP task_info
        domains used_var_pairs
      let m := compute_score (patterns.getD pid []) .CG_MIN_DOWN task_info
        domains used_var_pairs
      if order_type = .ACTIVE_OPS_UP_CG_MIN_DOWN then (a, -m) else (-m, a))

/-- The six order types for which lines 264-271 reverse the ascending order. -/
def is_down_order : PatternOrder → Bool
  | .PDB_SIZE_DOWN => true
  | .CG_SUM_DOWN => true
  | .CG_MIN_DOWN => true
  | .CG_MAX_DOWN => true
  | .NEW_VAR_PAIRS_DOWN => true
  | .ACTIVE_OPS_DOWN => true
  | _ => false

/-- The six simple score-based ascending order types. -/
def is_simple_up_order : PatternOrder → Bool
  | .PDB_SIZE_UP => true
  | .CG_SUM_UP => true
  | .CG_MIN_UP => true
  | .CG_MAX_UP => true
  | .NEW_VAR_PAIRS_UP => true
  | .ACTIVE_OPS_UP => true
  | _ => false

/-- The two lexicographic composite order types of lines 225-248. -/
def is_composite_order : PatternOrder → Bool
  | .ACTIVE_OPS_UP_CG_MIN_DOWN => true
  | .CG_MIN_DOWN_ACTIVE_OPS_UP => true
  | _ => false

/-- `compute_pattern_order` (lines 203-272). Note the unconditional
`rng.shuffle(order)` at line 219, executed for every order type other than
ORIGINAL and REVERSE before any sorting happens. The pair comparator of
std::pair is lexicographic, modelled through `Lex (Int × Int)`. -/
def compute_pattern_order (patterns : List (List Nat)) (order : List Nat)
    (order_type : PatternOrder) (task_info : TaskInfo) (domains : List Int)
    (used_var_pairs : List (List Bool)) (draw : Nat → Nat) (ridx : Nat) :
    List Nat × Nat :=
  if order_type = .ORIGINAL then (order, ridx)
  else if order_type = .REVERSE then (order.reverse, ridx)
  else
    let sh := shuffle draw ridx order
    if order_type = .RANDOM then sh
    else if order_type = .ACTIVE_OPS_UP_CG_MIN_DOWN ∨
        order_type = .CG_MIN_DOWN_ACTIVE_OPS_UP then
      let pairs := pairs_for patterns order_type task_info domains used_var_pairs
      (sort_by_key (fun i => toLex (pairs.getD i (0, 0))) sh.1, sh.2)
    else
      let scores := scores_for patterns order_type task_info domains used_var_pairs
      let sorted := sort_by_key (fun i => scores.getD i 0) sh.1
      if is_down_order order_type = true then (sorted.reverse, sh.2)
      else (sorted, sh.2)

/-! ## SequentialPatternGenerator (lines 275-393) -/

/-- The ordering-relevant state of `SequentialPatternGenerator`: its order
type, the task data used for scoring, the cached per-size pattern buckets with
their order vectors, and the position reached in the rng stream. -/
structure SequentialPatternGenerator where
  order_type : PatternOrder
  task_info : TaskInfo
  domains : List Int
  patterns : List (List (List Nat))
  orders : List (List Nat)
  ridx : Nat

/-- `get_order_type` (lines 289-298): ALT_TWO flips a coin between CG_MIN_DOWN
and ACTIVE_OPS_UP; every other type is returned unchanged without consuming the
rng. -/
def get_order_type (order_type : PatternOrder) (draw : Nat → Nat) (ridx : Nat) :
    PatternOrder × Nat :=
  if order_type = .ALT_TWO then
    if draw ridx % 2 = 0 then (.CG_MIN_DOWN, ridx + 1)
    else (.ACTIVE_OPS_UP, ridx + 1)
  else (order_type, ridx)

/-- Loop of `restart` (lines 378-383): recompute the order of each cached
bucket in turn, threading the rng stream position. -/
def recompute_orders (order_type : PatternOrder) (task_info : TaskInfo)
    (domains : List Int) (used_var_pairs : List (List Bool))
    (draw : Nat → Nat) :
    List (List (List Nat)) → List (List Nat) → Nat → List (List Nat) × Nat
  | _, [], ridx => ([], ridx)
  | pats, o :: os, ridx =>
      let r := compute_pattern_order (pats.headD []) o order_type task_info
        domains used_var_pairs draw ridx
      let rest := recompute_orders order_type task_info domains used_var_pairs
        draw pats.tail os r.2
      (r.1 :: rest.1, rest.2)

/-- `SequentialPatternGenerator::restart` (lines 372-384): only for the four
data-dependent order types does it recompute the cached bucket orders. -/
def SequentialPatternGenerator.restart (g : SequentialPatternGenerator)
    (used_var_pairs : List (List Bool)) (draw : Nat → Nat) :
    SequentialPatternGenerator :=
  if g.order_type = .RANDOM ∨ g.order_type = .NEW_VAR_PAIRS_UP ∨
      g.order_type = .NEW_VAR_PAIRS_DOWN ∨ g.order_type = .ALT_TWO then
    let c := get_order_type g.order_type draw g.ridx
    let r := recompute_orders c.1 g.task_info g.domains used_var_pairs draw
      g.patterns g.orders c.2
    { g with orders := r.1, ridx := r.2 }
  else g

/-! ## The selection loop of the driver (lines 414-534) -/

/-- Static data of `select_systematic_patterns`: option values and the
per-variable relevant operators. -/
structure DriverConfig where
  variable_domains : List Int
  max_pdb_size : Int
  max_patterns : Int
  max_collection_size : Int
  saturate : Bool
  ignore_useless_patterns : Bool
  relevant_operators_per_variable : List (List Nat)

/-- Mutable data threaded through the selection loop: the projection collection
(each projection represented by its pattern), the dedup set, the used-pair
matrix, the collection size and the remaining costs. -/
structure DriverState where
  projections : List (List Nat)
  pattern_set : List (List Nat)
  used_var_pairs : List (List Bool)
  collection_size : Int
  costs : List Int

/-- Modelled from the spec: the outcome of `PatternEvaluator::is_useful` and of
`Projection::compute_saturated_costs` for the candidate pattern
(pattern_evaluator.cc and projection.cc are not under src/). -/
structure PatternOracle where
  is_useful : Bool
  saturated_costs : List Int → List Int

/-- Control outcome of one iteration of the selection loop: continue with the
next pattern id, return false (generator exhausted / timeout), or return true
(a collection limit was reached). -/
inductive LoopSignal
  | next | stop_exhausted | stop_limit
  deriving DecidableEq

/-- `only_free_operators_affect_pdb` (lines 132-144). -/
def only_free_operators_affect_pdb (pattern : List Nat) (costs : List Int)
    (relevant_operators_per_variable : List (List Nat)) : Bool :=
  pattern.all (fun v =>
    ((relevant_operators_per_variable.getD v []).all (fun op =>
      !(decide (0 < costs.getD op 0) && decide (costs.getD op 0 ≠ INTMAX)))))

/-- The used-pair marking of lines 526-530: every ordered pair of pattern
variables is set. -/
def mark_used_pairs (used_var_pairs : List (List Bool)) (pattern : List Nat) :
    List (List Bool) :=
  pattern.foldl
    (fun u var1 =>
      pattern.foldl
        (fun u2 var2 => u2.set var1 ((u2.getD var1 []).set var2 true)) u)
    used_var_pairs

/-- Modelled from the spec: `cost_saturation::reduce_costs` (utils.cc is not
under src/): remaining[o] becomes max(0, remaining[o] - sat[o]), with an
infinite remaining cost (INTMAX here) staying infinite. -/
def reduce_costs (remaining saturated : List Int) : List Int :=
  List.zipWith (fun c s => if c = INTMAX then INTMAX else max 0 (c - s))
    remaining saturated

/-- One iteration of the loop body of `select_systematic_patterns`
(lines 433-533), for an already fetched pattern; the timer and debug output are
external. -/
def select_step (cfg : DriverConfig) (st : DriverState) (pattern : List Nat)
    (oracle : PatternOracle) : LoopSignal × DriverState :=
  if pattern = [] then (.stop_exhausted, st)
  else if pattern ∈ st.pattern_set then (.next, st)
  else
    let pdb_size := get_pdb_size cfg.variable_domains pattern
    if pdb_size = -1 ∨ pdb_size > cfg.max_pdb_size then (.next, st)
    else if (st.projections.length : Int) = cfg.max_patterns then
      (.stop_limit, st)
    else if cfg.max_collection_size ≠ INTMAX ∧
        pdb_size > cfg.max_collection_size - st.collection_size then
      (.stop_limit, st)
    else if cfg.ignore_useless_patterns = true ∧
        only_free_operators_affect_pdb pattern st.costs
          cfg.relevant_operators_per_variable = true then
      (.next, st)
    else
      let selected := if cfg.saturate = true then oracle.is_useful else true
      if selected = true then
        let costs2 :=
          if cfg.saturate = true then
            reduce_costs st.costs (oracle.saturated_costs st.costs)
          else st.costs
        (.next,
          { projections := st.projections ++ [pattern],
            pattern_set := pattern :: st.pattern_set,
            used_var_pairs := mark_used_pairs st.used_var_pairs pattern,
            collection_size := st.collection_size + pdb_size,
            costs := costs2 })
      else (.next, st)

/-! ## SaturatedCostPartitioningOnlineHeuristic
(saturated_cost_partitioning_online_heuristic.cc) -/

/-- The DEAD_END sentinel of Heuristic::compute_heuristic. -/
def DEAD_END : Int := -1

/-- The `saturator` option (ALL, PERIM, PERIMSTAR). -/
inductive Saturator
  | all | perim | perimstar
  deriving DecidableEq

/-- Observable actions of one `compute_heuristic` call, in program order:
evaluating the stored CPHs (line 232), computing a fresh SCP (lines 251-261),
adding the second, full saturation pass of PERIMSTAR (lines 265-269), and
storing the new CPH (lines 272-277). -/
inductive Event
  | evalStored | scpComputed | fullSaturation | storedCPH
  deriving DecidableEq

/-- Modelled from the spec: `CostPartitioningHeuristic`
(cost_partitioning_heuristic.h is not under src/), abstracted to its value
function on abstract-state-id vectors, its size estimate in KiB, and the ids of
the abstractions its `mark_useful_abstractions` marks. -/
structure CPH where
  eval : List Int → Int
  kb : Int
  usefulIds : List Nat

/-- Modelled from the spec: `UnsolvabilityHeuristic`
(max_cost_partitioning_heuristic.h is not under src/): the dead-end test on
abstract-state-id vectors and the abstraction ids its
`mark_useful_abstractions` marks. -/
structure UnsolvOracle where
  isUnsolvable : List Int → Bool
  usefulIds : List Nat

/-- Modelled from the spec: `CostPartitioningHeuristic::add`: concatenating the
lookup tables adds the values (infinity dominating) and the size estimates, and
unions the useful abstraction ids. -/
def addCPH (c d : CPH) : CPH :=
  { eval := fun a =>
      if c.eval a = INTMAX ∨ d.eval a = INTMAX then INTMAX
      else c.eval a + d.eval a,
    kb := c.kb + d.kb,
    usefulIds := c.usefulIds ++ d.usefulIds }

/-- Modelled from the spec: `compute_max_h_with_statistics` (utils.h of
cost_saturation is not under src/): the maximum of the stored CPH values,
0 when no CPH is stored. -/
def compute_max_h (cps : List CPH) (abstract_state_ids : List Int) : Int :=
  cps.foldl (fun m c => max m (c.eval abstract_state_ids)) 0

/-- The fact-id offsets built by the constructor (lines 80-85): offsets[v] is
the sum of the domain sizes of the variables before v. -/
def mk_offsets : List Nat → List Nat
  | [] => []
  | d :: ds => 0 :: (mk_offsets ds).map (· + d)

/-- `get_fact_id` (lines 194-196). -/
def get_fact_id (fact_id_offsets : List Nat) (var value : Nat) : Nat :=
  fact_id_offsets.getD var 0 + value

/-- The conditional swap at lines 105-107 of `visit_fact_pair`, normalizing the
pair so that the first id is not larger. -/
def swapped_pair (fact_id1 fact_id2 : Nat) : Nat × Nat :=
  if fact_id1 > fact_id2 then (fact_id2, fact_id1) else (fact_id1, fact_id2)

/-- `visit_fact_pair` (lines 104-112): record the unordered pair in the
seen_fact_pairs matrix, reporting whether it was new. -/
def visit_fact_pair (seen_fact_pairs : List (List Bool))
    (fact_id1 fact_id2 : Nat) : Bool × List (List Bool) :=
  let p := swapped_pair fact_id1 fact_id2
  let row := seen_fact_pairs.getD p.1 []
  (!(row.getD p.2 false), seen_fact_pairs.set p.1 (row.set p.2 true))

/-- Fold step for the interval = -1 branch of `is_novel` (lines 116-126): mark
each effect fact, raising the novelty flag when it was unseen. -/
def mark_fact_step (fact_id_offsets : List Nat) (acc : Bool × List Bool)
    (f : Nat × Nat) : Bool × List Bool :=
  if acc.2.getD (get_fact_id fact_id_offsets f.1 f.2) false = true then acc
  else (true, acc.2.set (get_fact_id fact_id_offsets f.1 f.2) true)

/-- The interval = -1 branch of `is_novel`: fold over the operator effects. -/
def mark_seen_facts (fact_id_offsets : List Nat) (effects : List (Nat × Nat))
    (seen_facts : List Bool) : Bool × List Bool :=
  effects.foldl (mark_fact_step fact_id_offsets) (false, seen_facts)

/-- Inner fold step for the interval = -2 branch of `is_novel`
(lines 133-142): visit the pair of the effect fact with the state fact of every
other variable. -/
def mark_pair_step (fact_id_offsets : List Nat) (state_vals : List Nat)
    (var1 : Nat) (fact_id1 : Nat) (acc : Bool × List (List Bool))
    (var2 : Nat) : Bool × List (List Bool) :=
  if var1 = var2 then acc
  else
    (acc.1 || (visit_fact_pair acc.2 fact_id1
        (get_fact_id fact_id_offsets var2 (state_vals.getD var2 0))).1,
      (visit_fact_pair acc.2 fact_id1
        (get_fact_id fact_id_offsets var2 (state_vals.getD var2 0))).2)

/-- Outer fold step for the interval = -2 branch of `is_novel`: one operator
effect crossed with all other variables of the successor state. -/
def mark_pairs_for_effect (fact_id_offsets : List Nat) (state_vals : List Nat)
    (acc : Bool × List (List Bool)) (f : Nat × Nat) : Bool × List (List Bool) :=
  (List.range fact_id_offsets.length).foldl
    (mark_pair_step fact_id_offsets state_vals f.1
      (get_fact_id fact_id_offsets f.1 f.2))
    acc

/-- The interval = -2 branch of `is_novel` (lines 127-144). -/
def mark_seen_pairs (fact_id_offsets : List Nat) (state_vals : List Nat)
    (effects : List (Nat × Nat)) (seen_fact_pairs : List (List Bool)) :
    Bool × List (List Bool) :=
  effects.foldl (mark_pairs_for_effect fact_id_offsets state_vals)
    (false, seen_fact_pairs)

/-- The (var, value) argument pairs passed to `visit_fact_pair` by the
interval = -2 branch of `is_novel` (lines 130-142): each effect fact crossed
with the state fact of every variable other than the effect variable. -/
def is_novel_pair_calls (num_vars : Nat) (effects : List (Nat × Nat))
    (state_vals : List Nat) : List ((Nat × Nat) × (Nat × Nat)) :=
  effects.foldr
    (fun f acc =>
      (((List.range num_vars).filter (fun var2 => decide (f.1 ≠ var2))).map
        (fun var2 => (f, (var2, state_vals.getD var2 0)))) ++ acc)
    []

/-- The (var, value) argument pairs passed to `visit_fact_pair` by
`notify_initial_state` with interval = -2 (lines 163-169): all variable pairs
var1 < var2 of the initial state. -/
def notify_initial_state_pair_calls (num_vars : Nat) (state_vals : List Nat) :
    List ((Nat × Nat) × (Nat × Nat)) :=
  (List.range num_vars).foldr
    (fun var1 acc =>
      (((List.range num_vars).filter (fun var2 => decide (var1 < var2))).map
        (fun var2 =>
          ((var1, state_vals.getD var1 0), (var2, state_vals.getD var2 0)))) ++
        acc)
    []

/-- Per-instance state of `SaturatedCostPartitioningOnlineHeuristic`.
Abstractions are represented by the tokens their
`extract_abstraction_function` would return. -/
structure OnlineSCP where
  saturator : Saturator
  interval : Int
  maxTime : Int
  maxSizeKb : Int
  useSample : Bool
  unsolv : UnsolvOracle
  improve : Bool
  sizeKb : Int
  numEvaluatedStates : Int
  numScpsComputed : Int
  cps : List CPH
  abstractions : List Nat
  abstractionFunctions : List (Option Nat)
  factIdOffsets : List Nat
  seenFacts : List Bool
  seenFactPairs : List (List Bool)

/-- `is_novel` (lines 114-148), acting on the novelty structures of the
heuristic state; the operator is given by its effect facts and the successor
state by its value vector. The final ABORT branch is unreachable for the
intervals the callers allow. -/
def is_novel (s : OnlineSCP) (effects : List (Nat × Nat))
    (state_vals : List Nat) : Bool × OnlineSCP :=
  if s.interval = -1 then
    let r := mark_seen_facts s.factIdOffsets effects s.seenFacts
    (r.1, { s with seenFacts := r.2 })
  else if s.interval = -2 then
    let r := mark_seen_pairs s.factIdOffsets state_vals effects s.seenFactPairs
    (r.1, { s with seenFactPairs := r.2 })
  else (false, s)

/-- `should_compute_scp` (lines 198-207); `cachedNovel` is the heuristic-cache
test `heuristic_cache[global_state].h == IS_NOVEL`. The final ABORT branch is
unreachable for valid intervals. -/
def should_compute_scp (interval numEvaluatedStates : Int)
    (cachedNovel : Bool) : Bool :=
  if interval > 0 then numEvaluatedStates % interval == 0
  else if interval = -1 ∨ interval = -2 then cachedNovel
  else false

/-- Mark the given abstraction ids useful. -/
def mark_ids (bits : List Bool) (ids : List Nat) : List Bool :=
  ids.foldl (fun b i => b.set i true) bits

/-- The useful-abstraction bits collected at lines 30-35, oracle first, then
every stored CPH. -/
def useful_bits (cps : List CPH) (unsolv : UnsolvOracle) (n : Nat) :
    List Bool :=
  cps.foldl (fun bits c => mark_ids bits c.usefulIds)
    (mark_ids (List.replicate n false) unsolv.usefulIds)

/-- `extract_useful_abstraction_functions` (lines 23-46): keep the abstraction
function of each useful abstraction, `none` for the others. -/
def extract_useful_abstraction_functions (cps : List CPH)
    (unsolv : UnsolvOracle) (abstractions : List Nat) : List (Option Nat) :=
  let bits := useful_bits cps unsolv abstractions.length
  (List.range abstractions.length).map
    (fun i => if bits.getD i false = true then some (abstractions.getD i 0)
      else none)

/-- The end of the improvement phase (lines 237-245): clear the improve flag,
release the novelty structures and the fact-id offsets, extract the useful
abstraction functions and release the abstraction list. -/
def end_improvement (s : OnlineSCP) : OnlineSCP :=
  { s with
    improve := false,
    factIdOffsets := [],
    seenFacts := [],
    seenFactPairs := [],
    abstractionFunctions :=
      extract_useful_abstraction_functions s.cps s.unsolv s.abstractions,
    abstractions := [] }

/-- Per-call external inputs of `compute_heuristic`: the abstract-state-id
vector of the query state, the timer reading at the improvement check, the
heuristic-cache novelty flag, and the results of the external cost-partitioning
computations (the PERIMSTAR perimeter pass of lines 256-257, the full pass of
lines 267-268, and the plain `cp_function` result of line 259). -/
structure QueryEnv where
  asIds : List Int
  now : Int
  cachedNovel : Bool
  perimCP : CPH
  fullCP : CPH
  normalCP : CPH

/-- `compute_heuristic` (lines 209-286): returns the heuristic value, the
successor heuristic state, and the log of observable actions. -/
def compute_heuristic (s : OnlineSCP) (env : QueryEnv) :
    Int × OnlineSCP × List Event :=
  if s.unsolv.isUnsolvable env.asIds = true then (DEAD_END, s, [])
  else
    let maxH := compute_max_h s.cps env.asIds
    let s1 :=
      if s.improve = true ∧ (env.now ≥ s.maxTime ∨ s.sizeKb ≥ s.maxSizeKb) then
        end_improvement s
      else s
    if s1.improve = true ∧
        should_compute_scp s1.interval s1.numEvaluatedStates env.cachedNovel
          = true then
      let cp0 := if s1.saturator = Saturator.perimstar then env.perimCP
        else env.normalCP
      let h := cp0.eval env.asIds
      let cp1 :=
        if s1.saturator = Saturator.perimstar ∧ h > maxH then
          addCPH cp0 env.fullCP
        else cp0
      let s2 := { s1 with numScpsComputed := s1.numScpsComputed + 1 }
      let s3 :=
        if s2.useSample = true ∧ h > maxH then
          { s2 with sizeKb := s2.sizeKb + cp1.kb, cps := s2.cps ++ [cp1] }
        else s2
      (max maxH h,
        { s3 with numEvaluatedStates := s3.numEvaluatedStates + 1 },
        Event.evalStored :: Event.scpComputed ::
          ((if s1.saturator = Saturator.perimstar ∧ h > maxH then
              [Event.fullSaturation] else []) ++
            (if s2.useSample = true ∧ h > maxH then [Event.storedCPH] else [])))
    else
      (maxH, { s1 with numEvaluatedStates := s1.numEvaluatedStates + 1 },
        [Event.evalStored])

/-! ## Stability of the sort model on key classes -/

theorem filter_insert_by_key_eq {α K : Type} [LinearOrder K] (key : α → K)
    (a : α) (l : List α) :
    (insert_by_key key a l).filter (fun x => decide (key x = key a)) =
      a :: l.filter (fun x => decide (key x = key a)) := by
  induction l with
  | nil => simp [insert_by_key]
  | cons b l ih =>
    by_cases hba : key b < key a
    · have hne : ¬ key b = key a := ne_of_lt hba
      simp [insert_by_key, hba, List.filter_cons, hne, ih]
    · simp [insert_by_key, hba, List.filter_cons]

theorem filter_insert_by_key_ne {α K : Type} [LinearOrder K] (key : α → K)
    (a : α) (k : K) (hk : ¬ key a = k) (l : List α) :
    (insert_by_key key a l).filter (fun x => decide (key x = k)) =
      l.filter (fun x => decide (key x = k)) := by
  induction l with
  | nil => simp [insert_by_key, hk]
  | cons b l ih =>
    by_cases hba : key b < key a
    · simp [insert_by_key, hba, List.filter_cons, ih]
    · simp [insert_by_key, hba, List.filter_cons, hk]

/-- The sort model is stable: the sublist of any key class is preserved. -/
theorem filter_sort_by_key {α K : Type} [LinearOrder K] (key : α → K) (k : K)
    (l : List α) :
    (sort_by_key key l).filter (fun x => decide (key x = k)) =
      l.filter (fun x => decide (key x = k)) := by
  induction l with
  | nil => rfl
  | cons a l ih =>
    by_cases hak : key a = k
    · subst hak
      rw [sort_by_key, filter_insert_by_key_eq, ih]
      simp [List.filter_cons]
    · rw [sort_by_key, filter_insert_by_key_ne key a k hak, ih]
      simp [List.filter_cons, hak]

/-! ## Frame lemmas for flagged folds (novelty bookkeeping) -/

theorem foldl_flag_true {α M : Type} (g : Bool × M → α → Bool × M)
    (hg : ∀ (m : M) (x : α), (g (true, m) x).1 = true) :
    ∀ (l : List α) (m : M), (l.foldl g (true, m)).1 = true := by
  intro l
  induction l with
  | nil => intro m; rfl
  | cons x l ih =>
    intro m
    have hx : g (true, m) x = (true, (g (true, m) x).2) := by
      cases hgx : g (true, m) x with
      | mk fl m2 => have := hg m x; simp [hgx] at this; simp [this]
    rw [List.foldl_cons, hx]
    exact ih _

theorem foldl_false_frame {α M : Type} (g : Bool × M → α → Bool × M)
    (hg1 : ∀ (m : M) (x : α), (g (true, m) x).1 = true)
    (hg2 : ∀ (m : M) (x : α), (g (false, m) x).1 = false →
      g (false, m) x = (false, m)) :
    ∀ (l : List α) (m : M), (l.foldl g (false, m)).1 = false →
      l.foldl g (false, m) = (false, m) := by
  intro l
  induction l with
  | nil => intro m _; rfl
  | cons x l ih =>
    intro m hflag
    rw [List.foldl_cons] at hflag ⊢
    cases hfx : (g (false, m) x).1 with
    | true =>
      exfalso
      have hx : g (false, m) x = (true, (g (false, m) x).2) := by
        cases hgx : g (false, m) x with
        | mk fl m2 => simp [hgx] at hfx; simp [hfx]
      rw [hx] at hflag
      rw [foldl_flag_true g hg1] at hflag
      exact absurd hflag (by simp)
    | false =>
      rw [hg2 m x hfx] at hflag ⊢
      exact ih m hflag

/-! ## Lemmas about the fact-id offsets -/

theorem mk_offsets_length : ∀ ds : List Nat, (mk_offsets ds).length = ds.length
  | [] => rfl
  | d :: ds => by simp [mk_offsets, mk_offsets_length ds]

theorem mk_offsets_map_getD (ds : List Nat) (d : Nat) (v : Nat)
    (hv : v < ds.length) :
    ((mk_offsets ds).map (· + d)).getD v 0 = (mk_offsets ds).getD v 0 + d := by
  have hv2 : v < (mk_offsets ds).length := by rw [mk_offsets_length]; exact hv
  rw [List.getD_eq_getElem?_getD, List.getD_eq_getElem?_getD,
    List.getElem?_map, List.getElem?_eq_getElem hv2]
  rfl

/-- Intervals of consecutive variables are disjoint: the id block of an
earlier variable ends before the block of a later one starts. -/
theorem mk_offsets_disjoint :
    ∀ (ds : List Nat) (v1 v2 : Nat), v1 < v2 → v2 < ds.length →
      (mk_offsets ds).getD v1 0 + ds.getD v1 0 ≤ (mk_offsets ds).getD v2 0 := by
  intro ds
  induction ds with
  | nil => intro v1 v2 _ h2; simp at h2
  | cons d ds ih =>
    intro v1 v2 h12 h2
    cases v1 with
    | zero =>
      cases v2 with
      | zero => omega
      | succ w =>
        have hw : w < ds.length := by simpa using h2
        have : ((mk_offsets ds).map (· + d)).getD w 0 =
            (mk_offsets ds).getD w 0 + d := mk_offsets_map_getD ds d w hw
        simp only [mk_offsets, List.getD_cons_zero, List.getD_cons_succ, this]
        omega
    | succ u =>
      cases v2 with
      | zero => omega
      | succ w =>
        have hu : u < ds.length := by
          have hw : w < ds.length := by simpa using h2
          omega
        have hw : w < ds.length := by simpa using h2
        have h1 : ((mk_offsets ds).map (· + d)).getD u 0 =
            (mk_offsets ds).getD u 0 + d := mk_offsets_map_getD ds d u hu
        have h2m : ((mk_offsets ds).map (· + d)).getD w 0 =
            (mk_offsets ds).getD w 0 + d := mk_offsets_map_getD ds d w hw
        have := ih u w (by omega) hw
        simp only [mk_offsets, List.getD_cons_succ, h1, h2m]
        omega

/-- Every fact id of a valid fact lies below the total number of facts. -/
theorem mk_offsets_bound :
    ∀ (ds : List Nat) (v : Nat), v < ds.length →
      (mk_offsets ds).getD v 0 + ds.getD v 0 ≤ ds.sum := by
  intro ds
  induction ds with
  | nil => intro v h; simp at h
  | cons d ds ih =>
    intro v hv
    cases v with
    | zero => simp [mk_offsets]
    | succ u =>
      have hu : u < ds.length := by simpa using hv
      have h1 : ((mk_offsets ds).map (· + d)).getD u 0 =
          (mk_offsets ds).getD u 0 + d := mk_offsets_map_getD ds d u hu
      have := ih u hu
      simp only [mk_offsets, List.getD_cons_succ, List.sum_cons, h1]
      omega

/-! ## Characterization of get_pdb_size -/

theorem list_prod_pos (l : List Int) (h : ∀ x ∈ l, 1 ≤ x) : 1 ≤ l.prod := by
  induction l with
  | nil => simp
  | cons a l ih =>
    have ha : 1 ≤ a := h a (by simp)
    have hl : 1 ≤ l.prod := ih (fun x hx => h x (List.mem_cons_of_mem a hx))
    calc (1 : Int) = 1 * 1 := by ring
    _ ≤ a * l.prod := by
      exact mul_le_mul ha hl (by norm_num) (by omega)
    _ = (a :: l).prod := by simp

theorem get_pdb_size_go_spec (ds : List Int) :
    ∀ (pattern : List Nat) (size : Int), 1 ≤ size → size ≤ INTMAX →
      (∀ v ∈ pattern, 1 ≤ ds.getD v 0) →
      get_pdb_size_go ds size pattern =
        if size * (pattern.map (fun v => ds.getD v 0)).prod ≤ INTMAX then
          size * (pattern.map (fun v => ds.getD v 0)).prod
        else -1 := by
  intro pattern
  induction pattern with
  | nil =>
    intro size hsize hmax _
    simp only [get_pdb_size_go, List.map_nil, List.prod_nil, mul_one]
    rw [if_pos hmax]
  | cons v vs ih =>
    intro size hsize hmax hvalid
    have hd : 1 ≤ ds.getD v 0 := hvalid v (by simp)
    have hrest : ∀ w ∈ vs, 1 ≤ ds.getD w 0 :=
      fun w hw => hvalid w (List.mem_cons_of_mem v hw)
    have hprod : 1 ≤ (vs.map (fun w => ds.getD w 0)).prod := by
      apply list_prod_pos
      intro x hx
      obtain ⟨w, hw, rfl⟩ := List.mem_map.mp hx
      exact hrest w hw
    by_cases hlim : size * ds.getD v 0 ≤ INTMAX
    · have hstep : is_product_within_limit size (ds.getD v 0) INTMAX = true := by
        simp only [is_product_within_limit, decide_eq_true_eq]
        exact hlim
      rw [get_pdb_size_go, if_pos hstep,
        ih (size * ds.getD v 0) (by nlinarith) hlim hrest]
      simp only [List.map_cons, List.prod_cons, ← mul_assoc]
    · have hstep : ¬ is_product_within_limit size (ds.getD v 0) INTMAX = true := by
        simp only [is_product_within_limit, decide_eq_true_eq]
        omega
      rw [get_pdb_size_go, if_neg hstep]
      have hpos : 0 ≤ size * ds.getD v 0 := by positivity
      have hgrow : size * ds.getD v 0 ≤
          size * ds.getD v 0 * (vs.map (fun w => ds.getD w 0)).prod := by
        nlinarith
      rw [if_neg]
      simp only [List.map_cons, List.prod_cons, ← mul_assoc]
      omega

/-- The value of `get_pdb_size`: the exact product of the pattern variables'
domain sizes when it fits a 32-bit int, and -1 exactly otherwise. -/
theorem get_pdb_size_spec (ds : List Int) (pattern : List Nat)
    (hvalid : ∀ v ∈ pattern, 1 ≤ ds.getD v 0) :
    get_pdb_size ds pattern =
      if (pattern.map (fun v => ds.getD v 0)).prod ≤ INTMAX then
        (pattern.map (fun v => ds.getD v 0)).prod
      else -1 := by
  have := get_pdb_size_go_spec ds pattern 1 (by norm_num)
    (by norm_num [INTMAX]) hvalid
  simpa [get_pdb_size] using this

/-! ## Concrete instances used by the witnesses -/

/-- A concrete stored-CPH value. -/
def cph_a : CPH := { eval := fun _ => 3, kb := 1, usefulIds := [0] }

/-- A concrete fresh-CPH value with value 7. -/
def cph_b : CPH := { eval := fun _ => 7, kb := 2, usefulIds := [1] }

/-- An oracle marking every queried vector unsolvable. -/
def oracle_dead : UnsolvOracle := { isUnsolvable := fun _ => true, usefulIds := [0] }

/-- An oracle never reporting unsolvability. -/
def oracle_live : UnsolvOracle := { isUnsolvable := fun _ => false, usefulIds := [1] }

/-- A concrete heuristic state in the improvement phase, interval 1. -/
def scp_state_a : OnlineSCP :=
  { saturator := .all, interval := 1, maxTime := 100, maxSizeKb := 1000,
    useSample := true, unsolv := oracle_live, improve := true, sizeKb := 0,
    numEvaluatedStates := 0, numScpsComputed := 0, cps := [cph_a],
    abstractions := [10, 11], abstractionFunctions := [],
    factIdOffsets := [0, 2], seenFacts := [false, false, false, false],
    seenFactPairs := [] }

/-- The same state under the dead-end oracle. -/
def scp_state_dead : OnlineSCP := { scp_state_a with unsolv := oracle_dead }

/-- The same state with the PERIMSTAR saturator. -/
def scp_state_perim : OnlineSCP := { scp_state_a with saturator := .perimstar }

/-- A concrete query environment. -/
def env_a : QueryEnv :=
  { asIds := [0, 1], now := 5, cachedNovel := true, perimCP := cph_b,
    fullCP := cph_a, normalCP := cph_b }

/-- A query environment whose timer reading exceeds max_time. -/
def env_late : QueryEnv := { env_a with now := 200 }

/-! ## Claims about compute_heuristic -/

/-- Claim C2: when the unsolvability oracle marks the abstract-state-id vector
unsolvable, `compute_heuristic` returns DEAD_END with an empty action log: no
stored cost-partitioning heuristic is evaluated and no new SCP is computed. -/
theorem c2_dead_end_short_circuit (s : OnlineSCP) (env : QueryEnv)
    (hu : s.unsolv.isUnsolvable env.asIds = true) :
    (compute_heuristic s env).1 = DEAD_END ∧
      (compute_heuristic s env).2.2 = [] ∧
      Event.evalStored ∉ (compute_heuristic s env).2.2 ∧
      Event.scpComputed ∉ (compute_heuristic s env).2.2 := by
  simp [compute_heuristic, hu]

/-- Witness for C2 at a concrete dead-end state. -/
theorem c2_dead_end_short_circuit_witness :
    (compute_heuristic scp_state_dead env_a).1 = DEAD_END ∧
      (compute_heuristic scp_state_dead env_a).2.2 = [] ∧
      Event.evalStored ∉ (compute_heuristic scp_state_dead env_a).2.2 ∧
      Event.scpComputed ∉ (compute_heuristic scp_state_dead env_a).2.2 :=
  c2_dead_end_short_circuit scp_state_dead env_a (by decide)

/-- Claim C9: a DEAD_END return leaves the whole heuristic state unchanged:
`num_evaluated_states` is not incremented, no SCP is computed or stored, and
the every-k trigger predicate is unaffected. -/
theorem c9_dead_end_no_counting (s : OnlineSCP) (env : QueryEnv)
    (hu : s.unsolv.isUnsolvable env.asIds = true) :
    (compute_heuristic s env).1 = DEAD_END ∧
      (compute_heuristic s env).2.1 = s ∧
      (compute_heuristic s env).2.1.numEvaluatedStates = s.numEvaluatedStates ∧
      (compute_heuristic s env).2.1.numScpsComputed = s.numScpsComputed ∧
      (compute_heuristic s env).2.1.cps = s.cps ∧
      Event.scpComputed ∉ (compute_heuristic s env).2.2 ∧
      Event.storedCPH ∉ (compute_heuristic s env).2.2 ∧
      (∀ (k : Int) (b : Bool),
        should_compute_scp k (compute_heuristic s env).2.1.numEvaluatedStates b =
          should_compute_scp k s.numEvaluatedStates b) := by
  simp [compute_heuristic, hu]

/-- Witness for C9 at a concrete dead-end state. -/
theorem c9_dead_end_no_counting_witness :
    (compute_heuristic scp_state_dead env_late).1 = DEAD_END ∧
      (compute_heuristic scp_state_dead env_late).2.1 = scp_state_dead ∧
      (compute_heuristic scp_state_dead env_late).2.1.numEvaluatedStates =
        scp_state_dead.numEvaluatedStates ∧
      (compute_heuristic scp_state_dead env_late).2.1.numScpsComputed =
        scp_state_dead.numScpsComputed ∧
      (compute_heuristic scp_state_dead env_late).2.1.cps = scp_state_dead.cps ∧
      Event.scpComputed ∉ (compute_heuristic scp_state_dead env_late).2.2 ∧
      Event.storedCPH ∉ (compute_heuristic scp_state_dead env_late).2.2 ∧
      (∀ (k : Int) (b : Bool),
        should_compute_scp k
            (compute_heuristic scp_state_dead env_late).2.1.numEvaluatedStates b =
          should_compute_scp k scp_state_dead.numEvaluatedStates b) :=
  c9_dead_end_no_counting scp_state_dead env_late (by decide)

/-- Claim C3: when a fresh SCP is computed during a query (improvement active,
trigger fires, no dead end, improvement not ending), the new CPH is stored if
and only if `use_evaluated_state_as_sample` is set and its value h strictly
exceeds the maximum over the stored CPHs; either way the query returns
max(max_h, h). -/
theorem c3_store_iff_diverse (s : OnlineSCP) (env : QueryEnv)
    (hu : s.unsolv.isUnsolvable env.asIds = false)
    (hi : s.improve = true)
    (ht : ¬(env.now ≥ s.maxTime ∨ s.sizeKb ≥ s.maxSizeKb))
    (hs : should_compute_scp s.interval s.numEvaluatedStates env.cachedNovel
      = true) :
    ((compute_heuristic s env).2.1.cps =
        s.cps ++ [if s.saturator = Saturator.perimstar ∧
            (if s.saturator = Saturator.perimstar then env.perimCP
              else env.normalCP).eval env.asIds >
              compute_max_h s.cps env.asIds then
          addCPH (if s.saturator = Saturator.perimstar then env.perimCP
            else env.normalCP) env.fullCP
        else (if s.saturator = Saturator.perimstar then env.perimCP
          else env.normalCP)] ↔
      (s.useSample = true ∧
        (if s.saturator = Saturator.perimstar then env.perimCP
          else env.normalCP).eval env.asIds >
          compute_max_h s.cps env.asIds)) ∧
    (¬(s.useSample = true ∧
        (if s.saturator = Saturator.perimstar then env.perimCP
          else env.normalCP).eval env.asIds >
          compute_max_h s.cps env.asIds) →
      (compute_heuristic s env).2.1.cps = s.cps) ∧
    (compute_heuristic s env).1 =
      max (compute_max_h s.cps env.asIds)
        ((if s.saturator = Saturator.perimstar then env.perimCP
          else env.normalCP).eval env.asIds) := by
  have hc1 : ¬ s.maxTime ≤ env.now := fun h => ht (Or.inl h)
  have hc2 : ¬ s.maxSizeKb ≤ s.sizeKb := fun h => ht (Or.inr h)
  by_cases hdiv : s.useSample = true ∧
      (if s.saturator = Saturator.perimstar then env.perimCP
        else env.normalCP).eval env.asIds > compute_max_h s.cps env.asIds
  · simp [compute_heuristic, hu, hc1, hc2, hi, hs, hdiv]
  · simp [compute_heuristic, hu, hc1, hc2, hi, hs, hdiv]

/-- Witness for C3 at a concrete state: one stored CPH of value 3, fresh CPH
of value 7, use_evaluated_state_as_sample set. -/
theorem c3_store_iff_diverse_witness :
    ((compute_heuristic scp_state_a env_a).2.1.cps =
        scp_state_a.cps ++ [if scp_state_a.saturator = Saturator.perimstar ∧
            (if scp_state_a.saturator = Saturator.perimstar then env_a.perimCP
              else env_a.normalCP).eval env_a.asIds >
              compute_max_h scp_state_a.cps env_a.asIds then
          addCPH (if scp_state_a.saturator = Saturator.perimstar then
            env_a.perimCP else env_a.normalCP) env_a.fullCP
        else (if scp_state_a.saturator = Saturator.perimstar then env_a.perimCP
          else env_a.normalCP)] ↔
      (scp_state_a.useSample = true ∧
        (if scp_state_a.saturator = Saturator.perimstar then env_a.perimCP
          else env_a.normalCP).eval env_a.asIds >
          compute_max_h scp_state_a.cps env_a.asIds)) ∧
    (¬(scp_state_a.useSample = true ∧
        (if scp_state_a.saturator = Saturator.perimstar then env_a.perimCP
          else env_a.normalCP).eval env_a.asIds >
          compute_max_h scp_state_a.cps env_a.asIds) →
      (compute_heuristic scp_state_a env_a).2.1.cps = scp_state_a.cps) ∧
    (compute_heuristic scp_state_a env_a).1 =
      max (compute_max_h scp_state_a.cps env_a.asIds)
        ((if scp_state_a.saturator = Saturator.perimstar then env_a.perimCP
          else env_a.normalCP).eval env_a.asIds) :=
  c3_store_iff_diverse scp_state_a env_a (by decide) (by decide)
    (by decide) (by decide)

/-- Claim C4: under the PERIMSTAR saturator each triggered SCP computation
increments `num_scps_computed` by exactly 1, and the second (full) saturation
pass appears in the action log if and only if the perimeter-phase value h
strictly exceeds max_h; for h ≤ max_h the full pass is skipped. -/
theorem c4_perimstar_two_phase (s : OnlineSCP) (env : QueryEnv)
    (hu : s.unsolv.isUnsolvable env.asIds = false)
    (hi : s.improve = true)
    (ht : ¬(env.now ≥ s.maxTime ∨ s.sizeKb ≥ s.maxSizeKb))
    (hs : should_compute_scp s.interval s.numEvaluatedStates env.cachedNovel
      = true)
    (hp : s.saturator = Saturator.perimstar) :
    (compute_heuristic s env).2.1.numScpsComputed = s.numScpsComputed + 1 ∧
      (Event.fullSaturation ∈ (compute_heuristic s env).2.2 ↔
        env.perimCP.eval env.asIds > compute_max_h s.cps env.asIds) ∧
      (Event.scpComputed ∈ (compute_heuristic s env).2.2) ∧
      (¬ env.perimCP.eval env.asIds > compute_max_h s.cps env.asIds →
        Event.fullSaturation ∉ (compute_heuristic s env).2.2) := by
  have hc1 : ¬ s.maxTime ≤ env.now := fun h => ht (Or.inl h)
  have hc2 : ¬ s.maxSizeKb ≤ s.sizeKb := fun h => ht (Or.inr h)
  by_cases hh : env.perimCP.eval env.asIds > compute_max_h s.cps env.asIds
  · by_cases hdiv : s.useSample = true
    · simp [compute_heuristic, hu, hc1, hc2, hi, hs, hp, hh, hdiv]
    · simp [compute_heuristic, hu, hc1, hc2, hi, hs, hp, hh, hdiv]
  · by_cases hdiv : s.useSample = true
    · simp [compute_heuristic, hu, hc1, hc2, hi, hs, hp, hh, hdiv]
    · simp [compute_heuristic, hu, hc1, hc2, hi, hs, hp, hh, hdiv]

/-- Witness for C4: PERIMSTAR state where the perimeter value 7 beats the
stored maximum 3, so the full pass is added. -/
theorem c4_perimstar_two_phase_witness :
    (compute_heuristic scp_state_perim env_a).2.1.numScpsComputed =
        scp_state_perim.numScpsComputed + 1 ∧
      (Event.fullSaturation ∈ (compute_heuristic scp_state_perim env_a).2.2 ↔
        env_a.perimCP.eval env_a.asIds >
          compute_max_h scp_state_perim.cps env_a.asIds) ∧
      (Event.scpComputed ∈ (compute_heuristic scp_state_perim env_a).2.2) ∧
      (¬ env_a.perimCP.eval env_a.asIds >
          compute_max_h scp_state_perim.cps env_a.asIds →
        Event.fullSaturation ∉ (compute_heuristic scp_state_perim env_a).2.2) :=
  c4_perimstar_two_phase scp_state_perim env_a (by decide) (by decide)
    (by decide) (by decide) (by decide)

/-- Read a mapped range through getD. -/
theorem getD_map_range {α : Type} (f : Nat → α) (n i : Nat) (d : α)
    (h : i < n) : ((List.range n).map f).getD i d = f i := by
  rw [List.getD_eq_getElem?_getD, List.getElem?_map, List.getElem?_range h]
  rfl

/-- Claim C5: the query that ends the improvement phase extracts abstraction
functions exactly for the abstractions marked useful by a stored CPH or the
unsolvability oracle, releases the abstraction list and the novelty
structures, and computes no SCP; afterwards the improve flag stays false
forever and no SCP is ever computed or stored again. -/
theorem c5_improvement_phase_end (s : OnlineSCP) (env : QueryEnv) :
    ((s.unsolv.isUnsolvable env.asIds = false → s.improve = true →
      (env.now ≥ s.maxTime ∨ s.sizeKb ≥ s.maxSizeKb) →
      ((compute_heuristic s env).2.1.improve = false ∧
        (compute_heuristic s env).2.1.abstractions = [] ∧
        (compute_heuristic s env).2.1.seenFacts = [] ∧
        (compute_heuristic s env).2.1.seenFactPairs = [] ∧
        (compute_heuristic s env).2.1.factIdOffsets = [] ∧
        (compute_heuristic s env).2.1.abstractionFunctions =
          extract_useful_abstraction_functions s.cps s.unsolv s.abstractions ∧
        (∀ i, i < s.abstractions.length →
          (((compute_heuristic s env).2.1.abstractionFunctions.getD i
              none).isSome = true ↔
            (useful_bits s.cps s.unsolv s.abstractions.length).getD i false
              = true)) ∧
        (compute_heuristic s env).2.1.numScpsComputed = s.numScpsComputed ∧
        (compute_heuristic s env).2.1.cps = s.cps))) ∧
    (s.improve = false →
      ((compute_heuristic s env).2.1.improve = false ∧
        (compute_heuristic s env).2.1.numScpsComputed = s.numScpsComputed ∧
        (compute_heuristic s env).2.1.cps = s.cps ∧
        Event.scpComputed ∉ (compute_heuristic s env).2.2 ∧
        Event.storedCPH ∉ (compute_heuristic s env).2.2)) := by
  constructor
  · intro hu hi hend
    have hfuncs : (compute_heuristic s env).2.1.abstractionFunctions =
        extract_useful_abstraction_functions s.cps s.unsolv s.abstractions := by
      simp [compute_heuristic, hu, hi, hend, end_improvement,
        should_compute_scp]
    refine ⟨?_, ?_, ?_, ?_, ?_, hfuncs, ?_, ?_, ?_⟩
    · simp [compute_heuristic, hu, hi, hend, end_improvement,
        should_compute_scp]
    · simp [compute_heuristic, hu, hi, hend, end_improvement,
        should_compute_scp]
    · simp [compute_heuristic, hu, hi, hend, end_improvement,
        should_compute_scp]
    · simp [compute_heuristic, hu, hi, hend, end_improvement,
        should_compute_scp]
    · simp [compute_heuristic, hu, hi, hend, end_improvement,
        should_compute_scp]
    · intro i hilt
      rw [hfuncs]
      rw [extract_useful_abstraction_functions]
      rw [getD_map_range _ _ _ _ hilt]
      by_cases hb : (useful_bits s.cps s.unsolv s.abstractions.length).getD i
          false = true
      · simp [hb]
      · simp [hb]
    · simp [compute_heuristic, hu, hi, hend, end_improvement,
        should_compute_scp]
    · simp [compute_heuristic, hu, hi, hend, end_improvement,
        should_compute_scp]
  · intro hoff
    by_cases hu : s.unsolv.isUnsolvable env.asIds = true
    · simp [compute_heuristic, hu, hoff]
    · simp [compute_heuristic, hu, hoff]

/-- The concrete state after the improvement flag has been cleared. -/
def scp_state_off : OnlineSCP := { scp_state_a with improve := false }

/-- Witness for C5: a state whose timer reading exceeds max_time, ending the
phase, and a state with the flag already cleared. -/
theorem c5_improvement_phase_end_witness :
    ((compute_heuristic scp_state_a env_late).2.1.improve = false ∧
      (compute_heuristic scp_state_a env_late).2.1.abstractions = [] ∧
      (compute_heuristic scp_state_a env_late).2.1.seenFacts = [] ∧
      (compute_heuristic scp_state_a env_late).2.1.seenFactPairs = [] ∧
      (compute_heuristic scp_state_a env_late).2.1.factIdOffsets = [] ∧
      (compute_heuristic scp_state_a env_late).2.1.abstractionFunctions =
        extract_useful_abstraction_functions scp_state_a.cps
          scp_state_a.unsolv scp_state_a.abstractions ∧
      (∀ i, i < scp_state_a.abstractions.length →
        (((compute_heuristic scp_state_a
            env_late).2.1.abstractionFunctions.getD i none).isSome = true ↔
          (useful_bits scp_state_a.cps scp_state_a.unsolv
            scp_state_a.abstractions.length).getD i false = true)) ∧
      (compute_heuristic scp_state_a env_late).2.1.numScpsComputed =
        scp_state_a.numScpsComputed ∧
      (compute_heuristic scp_state_a env_late).2.1.cps = scp_state_a.cps) ∧
    ((compute_heuristic scp_state_off env_a).2.1.improve = false ∧
      (compute_heuristic scp_state_off env_a).2.1.numScpsComputed =
        scp_state_off.numScpsComputed ∧
      (compute_heuristic scp_state_off env_a).2.1.cps = scp_state_off.cps ∧
      Event.scpComputed ∉ (compute_heuristic scp_state_off env_a).2.2 ∧
      Event.storedCPH ∉ (compute_heuristic scp_state_off env_a).2.2) :=
  ⟨(c5_improvement_phase_end scp_state_a env_late).1 (by decide) (by decide)
      (Or.inl (by decide)),
    (c5_improvement_phase_end scp_state_off env_a).2 (by decide)⟩

/-! ## Frame lemmas for the novelty structures -/

/-- A visit that reports a pair as not novel writes nothing new. -/
theorem visit_fact_pair_frame (m : List (List Bool)) (a b : Nat)
    (h : (visit_fact_pair m a b).1 = false) : (visit_fact_pair m a b).2 = m := by
  simp only [visit_fact_pair, Bool.not_eq_false'] at h ⊢
  have hb : (swapped_pair a b).2 < (m.getD (swapped_pair a b).1 []).length := by
    by_contra hge
    rw [getD_of_len_le _ _ _ (Nat.le_of_not_lt hge)] at h
    exact Bool.false_ne_true h
  have ha : (swapped_pair a b).1 < m.length := by
    by_contra hge
    rw [getD_of_len_le _ _ _ (Nat.le_of_not_lt hge)] at h
    simp at h
  have hrow : (m.getD (swapped_pair a b).1 []).set (swapped_pair a b).2 true =
      m.getD (swapped_pair a b).1 [] := by
    rw [← h]
    exact set_getD_self _ _ _ hb
  rw [hrow]
  exact set_getD_self m _ [] ha

theorem mark_fact_step_flag (offs : List Nat) (m : List Bool) (x : Nat × Nat) :
    (mark_fact_step offs (true, m) x).1 = true := by
  rw [mark_fact_step]
  split
  · rfl
  · rfl

theorem mark_fact_step_frame (offs : List Nat) (m : List Bool) (x : Nat × Nat)
    (h : (mark_fact_step offs (false, m) x).1 = false) :
    mark_fact_step offs (false, m) x = (false, m) := by
  by_cases hc : ((false, m) : Bool × List Bool).2.getD
      (get_fact_id offs x.1 x.2) false = true
  · rw [mark_fact_step, if_pos hc]
  · rw [mark_fact_step, if_neg hc] at h
    exact absurd h (by simp)

theorem mark_pair_step_flag (offs : List Nat) (sv : List Nat) (v1 f1 : Nat)
    (m : List (List Bool)) (v2 : Nat) :
    (mark_pair_step offs sv v1 f1 (true, m) v2).1 = true := by
  rw [mark_pair_step]
  split
  · rfl
  · rfl

theorem mark_pair_step_frame (offs : List Nat) (sv : List Nat) (v1 f1 : Nat)
    (m : List (List Bool)) (v2 : Nat)
    (h : (mark_pair_step offs sv v1 f1 (false, m) v2).1 = false) :
    mark_pair_step offs sv v1 f1 (false, m) v2 = (false, m) := by
  by_cases hc : v1 = v2
  · rw [mark_pair_step, if_pos hc]
  · rw [mark_pair_step, if_neg hc] at h ⊢
    simp only [Bool.false_or] at h ⊢
    rw [h, visit_fact_pair_frame _ _ _ h]

theorem mark_pairs_for_effect_flag (offs : List Nat) (sv : List Nat)
    (m : List (List Bool)) (f : Nat × Nat) :
    (mark_pairs_for_effect offs sv (true, m) f).1 = true := by
  rw [mark_pairs_for_effect]
  exact foldl_flag_true _ (fun m2 v2 => mark_pair_step_flag offs sv f.1 _ m2 v2)
    _ m

theorem mark_pairs_for_effect_frame (offs : List Nat) (sv : List Nat)
    (m : List (List Bool)) (f : Nat × Nat)
    (h : (mark_pairs_for_effect offs sv (false, m) f).1 = false) :
    mark_pairs_for_effect offs sv (false, m) f = (false, m) := by
  rw [mark_pairs_for_effect] at h ⊢
  exact foldl_false_frame _
    (fun m2 v2 => mark_pair_step_flag offs sv f.1 _ m2 v2)
    (fun m2 v2 => mark_pair_step_frame offs sv f.1 _ m2 v2) _ m h

/-- Claim C6: whenever `is_novel` returns false — for the interval = -1 fact
tracking as well as the interval = -2 fact-pair tracking — the heuristic state
(in particular the seen-facts / seen-fact-pairs structures) is exactly what it
was before the call: marking only happens when something unseen is visited. -/
theorem c6_not_novel_no_marking (s : OnlineSCP) (effects : List (Nat × Nat))
    (state_vals : List Nat)
    (hint : s.interval = -1 ∨ s.interval = -2)
    (hres : (is_novel s effects state_vals).1 = false) :
    (is_novel s effects state_vals).2 = s := by
  rcases hint with h1 | h2
  · rw [is_novel, if_pos h1] at hres ⊢
    have hfold : mark_seen_facts s.factIdOffsets effects s.seenFacts =
        (false, s.seenFacts) := by
      rw [mark_seen_facts]
      exact foldl_false_frame _ (fun m x => mark_fact_step_flag _ m x)
        (fun m x => mark_fact_step_frame _ m x) _ _ hres
    rw [hfold]
  · have h1 : ¬ s.interval = -1 := by rw [h2]; decide
    rw [is_novel, if_neg h1, if_pos h2] at hres ⊢
    have hfold : mark_seen_pairs s.factIdOffsets state_vals effects
        s.seenFactPairs = (false, s.seenFactPairs) := by
      rw [mark_seen_pairs]
      exact foldl_false_frame _
        (fun m x => mark_pairs_for_effect_flag _ _ m x)
        (fun m x => mark_pairs_for_effect_frame _ _ m x) _ _ hres
    rw [hfold]

/-- A concrete 2-novelty state whose seen structures already contain the
queried pairs. -/
def scp_state_pairs : OnlineSCP :=
  { scp_state_a with
    interval := -2,
    factIdOffsets := [0, 2],
    seenFacts := [],
    seenFactPairs :=
      [[false, false, true, true], [false, false, true, true],
        [false, false, false, false], [false, false, false, false]] }

/-- Witness for C6: an effect on variable 0 crossed with variable 1 of the
state hits only already-seen pairs, so the state is unchanged. -/
theorem c6_not_novel_no_marking_witness :
    (is_novel scp_state_pairs [(0, 1)] [1, 0]).1 = false ∧
      (is_novel scp_state_pairs [(0, 1)] [1, 0]).2 = scp_state_pairs :=
  ⟨by decide,
    c6_not_novel_no_marking scp_state_pairs [(0, 1)] [1, 0]
      (Or.inr (by decide)) (by decide)⟩

/-! ## Lemmas for the visit_fact_pair safety claim -/

/-- Fact ids of facts of distinct variables are ordered with the variables. -/
theorem get_fact_id_lt (ds : List Nat) (var1 var2 v1 v2 : Nat)
    (h12 : var1 < var2) (h2 : var2 < ds.length) (hv1 : v1 < ds.getD var1 0) :
    get_fact_id (mk_offsets ds) var1 v1 < get_fact_id (mk_offsets ds) var2 v2 := by
  have := mk_offsets_disjoint ds var1 var2 h12 h2
  rw [get_fact_id, get_fact_id]
  omega

/-- Fact ids of valid facts lie below the total fact count. -/
theorem get_fact_id_lt_sum (ds : List Nat) (var v : Nat)
    (hvar : var < ds.length) (hv : v < ds.getD var 0) :
    get_fact_id (mk_offsets ds) var v < ds.sum := by
  have := mk_offsets_bound ds var hvar
  rw [get_fact_id]
  omega

/-- Every pair the interval = -2 branch of `is_novel` hands to
`visit_fact_pair` crosses two distinct variables. -/
theorem is_novel_pair_calls_distinct (num_vars : Nat) (st : List Nat) :
    ∀ (effects : List (Nat × Nat)),
      ∀ c ∈ is_novel_pair_calls num_vars effects st, c.1.1 ≠ c.2.1 := by
  intro effects
  induction effects with
  | nil => intro c hc; simp [is_novel_pair_calls] at hc
  | cons f fs ih =>
    intro c hc
    rw [is_novel_pair_calls, List.foldr_cons, List.mem_append] at hc
    rcases hc with hc | hc
    · obtain ⟨var2, hv2, rfl⟩ := List.mem_map.mp hc
      have := List.of_mem_filter hv2
      simpa using this
    · exact ih c hc

/-- Every pair `notify_initial_state` hands to `visit_fact_pair` crosses two
distinct variables (var1 < var2). -/
theorem notify_pair_calls_distinct_aux (num_vars : Nat) (st : List Nat) :
    ∀ (l : List Nat),
      ∀ c ∈ l.foldr
        (fun var1 acc =>
          (((List.range num_vars).filter
            (fun var2 => decide (var1 < var2))).map
            (fun var2 =>
              ((var1, st.getD var1 0), (var2, st.getD var2 0)))) ++ acc)
        [], c.1.1 ≠ c.2.1 := by
  intro l
  induction l with
  | nil => intro c hc; simp at hc
  | cons v1 vs ih =>
    intro c hc
    rw [List.foldr_cons, List.mem_append] at hc
    rcases hc with hc | hc
    · obtain ⟨var2, hv2, rfl⟩ := List.mem_map.mp hc
      have := List.of_mem_filter hv2
      simp only [decide_eq_true_eq] at this
      exact Nat.ne_of_lt this
    · exact ih c hc

/-- Claim C10: `visit_fact_pair` is safe and symmetric: distinct variables
yield distinct fact ids, so the conditional swap establishes the assert
fact_id1 < fact_id2; valid fact ids stay inside the num_facts × num_facts
matrix; the function has unordered-pair semantics; and both call sites — the
interval = -2 branch of `is_novel` and `notify_initial_state` — only pass
facts of two distinct variables. -/
theorem c10_visit_fact_pair_safety (ds : List Nat) (var1 var2 v1 v2 : Nat)
    (a b : Nat) (m : List (List Bool)) (num_vars : Nat)
    (effects : List (Nat × Nat)) (st : List Nat) :
    (var1 ≠ var2 → var1 < ds.length → var2 < ds.length →
      v1 < ds.getD var1 0 → v2 < ds.getD var2 0 →
      (get_fact_id (mk_offsets ds) var1 v1 ≠
          get_fact_id (mk_offsets ds) var2 v2 ∧
        get_fact_id (mk_offsets ds) var1 v1 < ds.sum ∧
        get_fact_id (mk_offsets ds) var2 v2 < ds.sum)) ∧
    (a ≠ b → (swapped_pair a b).1 < (swapped_pair a b).2) ∧
    (visit_fact_pair m a b = visit_fact_pair m b a) ∧
    (∀ c ∈ is_novel_pair_calls num_vars effects st, c.1.1 ≠ c.2.1) ∧
    (∀ c ∈ notify_initial_state_pair_calls num_vars st, c.1.1 ≠ c.2.1) := by
  refine ⟨?_, ?_, ?_, ?_, ?_⟩
  · intro hne h1 h2 hv1 hv2
    rcases Nat.lt_or_ge var1 var2 with h12 | h21
    · exact ⟨Nat.ne_of_lt (get_fact_id_lt ds var1 var2 v1 v2 h12 h2 hv1),
        get_fact_id_lt_sum ds var1 v1 h1 hv1,
        get_fact_id_lt_sum ds var2 v2 h2 hv2⟩
    · have h12 : var2 < var1 := by omega
      exact ⟨(Nat.ne_of_lt (get_fact_id_lt ds var2 var1 v2 v1 h12 h1 hv2)).symm,
        get_fact_id_lt_sum ds var1 v1 h1 hv1,
        get_fact_id_lt_sum ds var2 v2 h2 hv2⟩
  · intro hne
    rw [swapped_pair]
    by_cases hab : a > b
    · rw [if_pos hab]
      exact hab
    · rw [if_neg hab]
      omega
  · have hsw : swapped_pair a b = swapped_pair b a := by
      rw [swapped_pair, swapped_pair]
      rcases Nat.lt_trichotomy a b with h | h | h
      · rw [if_neg (by omega), if_pos (by omega)]
      · subst h
        rfl
      · rw [if_pos (by omega), if_neg (by omega)]
    rw [visit_fact_pair, visit_fact_pair, hsw]
  · exact is_novel_pair_calls_distinct num_vars st effects
  · exact notify_pair_calls_distinct_aux num_vars st (List.range num_vars)

/-- Witness for C10 at the task with domains [2, 3]. -/
theorem c10_visit_fact_pair_safety_witness :
    (get_fact_id (mk_offsets [2, 3]) 0 1 ≠ get_fact_id (mk_offsets [2, 3]) 1 2 ∧
      get_fact_id (mk_offsets [2, 3]) 0 1 < [2, 3].sum ∧
      get_fact_id (mk_offsets [2, 3]) 1 2 < [2, 3].sum) ∧
    (swapped_pair 4 1).1 < (swapped_pair 4 1).2 ∧
    (visit_fact_pair [[false]] 4 1 = visit_fact_pair [[false]] 1 4) ∧
    (∀ c ∈ is_novel_pair_calls 2 [(0, 1)] [1, 2], c.1.1 ≠ c.2.1) ∧
    (∀ c ∈ notify_initial_state_pair_calls 2 [1, 2], c.1.1 ≠ c.2.1) :=
  ⟨(c10_visit_fact_pair_safety [2, 3] 0 1 1 2 4 1 [[false]] 2 [(0, 1)]
      [1, 2]).1 (by decide) (by decide) (by decide) (by decide) (by decide),
    (c10_visit_fact_pair_safety [2, 3] 0 1 1 2 4 1 [[false]] 2 [(0, 1)]
      [1, 2]).2.1 (by decide),
    (c10_visit_fact_pair_safety [2, 3] 0 1 1 2 4 1 [[false]] 2 [(0, 1)]
      [1, 2]).2.2.1,
    (c10_visit_fact_pair_safety [2, 3] 0 1 1 2 4 1 [[false]] 2 [(0, 1)]
      [1, 2]).2.2.2.1,
    (c10_visit_fact_pair_safety [2, 3] 0 1 1 2 4 1 [[false]] 2 [(0, 1)]
      [1, 2]).2.2.2.2⟩

/-! ## Claim C7: restart recomputes only data-dependent orders -/

/-- Claim C7: `SequentialPatternGenerator::restart` leaves every cached bucket
order (indeed the whole generator state) unchanged for every ordering policy
other than RANDOM, NEW_VAR_PAIRS_UP, NEW_VAR_PAIRS_DOWN and ALT_TWO; exactly
for those four it recomputes the orders of the materialized buckets through
`compute_pattern_order`. -/
theorem c7_restart_frame (g : SequentialPatternGenerator)
    (used : List (List Bool)) (draw : Nat → Nat) :
    (¬(g.order_type = .RANDOM ∨ g.order_type = .NEW_VAR_PAIRS_UP ∨
        g.order_type = .NEW_VAR_PAIRS_DOWN ∨ g.order_type = .ALT_TWO) →
      g.restart used draw = g) ∧
    ((g.order_type = .RANDOM ∨ g.order_type = .NEW_VAR_PAIRS_UP ∨
        g.order_type = .NEW_VAR_PAIRS_DOWN ∨ g.order_type = .ALT_TWO) →
      (g.restart used draw).orders =
        (recompute_orders (get_order_type g.order_type draw g.ridx).1
          g.task_info g.domains used draw g.patterns g.orders
          (get_order_type g.order_type draw g.ridx).2).1) := by
  constructor
  · intro h
    rw [SequentialPatternGenerator.restart, if_neg h]
  · intro h
    rw [SequentialPatternGenerator.restart, if_pos h]

/-- A concrete generator with two cached buckets. -/
def seq_gen (t : PatternOrder) : SequentialPatternGenerator :=
  { order_type := t,
    task_info := { numOperators := 0, affectsPattern := fun _ _ => false },
    domains := [2, 2, 2],
    patterns := [[[0], [1], [2]], [[0, 1], [0, 2]]],
    orders := [[0, 1, 2], [0, 1]],
    ridx := 0 }

/-- Witness for C7: a deterministic policy keeps the generator unchanged and
RANDOM recomputes the cached orders. -/
theorem c7_restart_frame_witness :
    (seq_gen .PDB_SIZE_UP).restart [] (fun _ => 0) = seq_gen .PDB_SIZE_UP ∧
      ((seq_gen .RANDOM).restart [] (fun _ => 0)).orders =
        (recompute_orders
          (get_order_type (seq_gen .RANDOM).order_type (fun _ => 0)
            (seq_gen .RANDOM).ridx).1
          (seq_gen .RANDOM).task_info (seq_gen .RANDOM).domains []
          (fun _ => 0) (seq_gen .RANDOM).patterns (seq_gen .RANDOM).orders
          (get_order_type (seq_gen .RANDOM).order_type (fun _ => 0)
            (seq_gen .RANDOM).ridx).2).1 :=
  ⟨(c7_restart_frame (seq_gen .PDB_SIZE_UP) [] (fun _ => 0)).1 (by decide),
    (c7_restart_frame (seq_gen .RANDOM) [] (fun _ => 0)).2 (by decide)⟩

/-! ## Claim C8: pdb-size overflow handling and the skip path -/

/-- Claim C8: `get_pdb_size` returns the exact product of the pattern
variables' domain sizes when it fits a signed 32-bit int and -1 exactly when it
would overflow, and the driver loop skips a candidate whose size is -1 or above
max_pdb_size without touching the projection collection, the pattern set, the
used pairs, the collection size or the remaining costs. -/
theorem c8_pdb_size_overflow_skip :
    (∀ (ds : List Int) (pattern : List Nat),
      (∀ v ∈ pattern, 1 ≤ ds.getD v 0) →
      (((pattern.map (fun v => ds.getD v 0)).prod ≤ INTMAX →
          get_pdb_size ds pattern =
            (pattern.map (fun v => ds.getD v 0)).prod) ∧
        (get_pdb_size ds pattern = -1 ↔
          INTMAX < (pattern.map (fun v => ds.getD v 0)).prod))) ∧
    (∀ (cfg : DriverConfig) (st : DriverState) (pattern : List Nat)
      (oracle : PatternOracle),
      ¬ pattern = [] → ¬ pattern ∈ st.pattern_set →
      (get_pdb_size cfg.variable_domains pattern = -1 ∨
        get_pdb_size cfg.variable_domains pattern > cfg.max_pdb_size) →
      select_step cfg st pattern oracle = (LoopSignal.next, st)) := by
  constructor
  · intro ds pattern hvalid
    have hspec := get_pdb_size_spec ds pattern hvalid
    have hprod : 1 ≤ (pattern.map (fun v => ds.getD v 0)).prod := by
      apply list_prod_pos
      intro x hx
      obtain ⟨w, hw, rfl⟩ := List.mem_map.mp hx
      exact hvalid w hw
    constructor
    · intro hle
      rw [hspec, if_pos hle]
    · constructor
      · intro hminus
        by_contra hgt
        rw [hspec, if_pos (by omega)] at hminus
        omega
      · intro hgt
        rw [hspec, if_neg (by omega)]
  · intro cfg st pattern oracle hne hmem hskip
    rw [select_step, if_neg hne, if_neg hmem, if_pos hskip]

/-- Witness for C8: with domains [70000, 70000, 70000] the three-variable
pattern overflows a 32-bit int, and the driver loop skips it unchanged. -/
theorem c8_pdb_size_overflow_skip_witness :
    (([0, 1, 2].map
        (fun v => ([70000, 70000, 70000] : List Int).getD v 0)).prod ≤ INTMAX →
      get_pdb_size [70000, 70000, 70000] [0, 1, 2] =
        ([0, 1, 2].map
          (fun v => ([70000, 70000, 70000] : List Int).getD v 0)).prod) ∧
    (get_pdb_size [70000, 70000, 70000] [0, 1, 2] = -1 ↔
      INTMAX < ([0, 1, 2].map
        (fun v => ([70000, 70000, 70000] : List Int).getD v 0)).prod) ∧
    select_step
        { variable_domains := [70000, 70000, 70000], max_pdb_size := 1000000,
          max_patterns := 10, max_collection_size := INTMAX, saturate := true,
          ignore_useless_patterns := false,
          relevant_operators_per_variable := [[], [], []] }
        { projections := [], pattern_set := [[0]], used_var_pairs := [],
          collection_size := 0, costs := [1] }
        [0, 1, 2]
        { is_useful := true, saturated_costs := fun c => c } =
      (LoopSignal.next,
        { projections := [], pattern_set := [[0]], used_var_pairs := [],
          collection_size := 0, costs := [1] }) := by
  have h1 := (c8_pdb_size_overflow_skip.1 [70000, 70000, 70000] [0, 1, 2]
    (by decide)).1
  have h2 := (c8_pdb_size_overflow_skip.1 [70000, 70000, 70000] [0, 1, 2]
    (by decide)).2
  refine ⟨h1, h2, ?_⟩
  exact c8_pdb_size_overflow_skip.2
    { variable_domains := [70000, 70000, 70000], max_pdb_size := 1000000,
      max_patterns := 10, max_collection_size := INTMAX, saturate := true,
      ignore_useless_patterns := false,
      relevant_operators_per_variable := [[], [], []] }
    { projections := [], pattern_set := [[0]], used_var_pairs := [],
      collection_size := 0, costs := [1] }
    [0, 1, 2]
    { is_useful := true, saturated_costs := fun c => c }
    (by decide) (by decide) (Or.inl (by decide))

/-! ## Claim C1: tie order of compute_pattern_order -/

/-- A task with no operators, used by the C1 counterexample. -/
def ti_empty : TaskInfo := { numOperators := 0, affectsPattern := fun _ _ => false }

/-- Counterexample to claim C1 as stated: two singleton patterns over binary
variables have the same PDB_SIZE_UP score 2, yet with an rng stream whose first
draw is 0 the unconditional shuffle at line 219 swaps them before sorting, so
`compute_pattern_order` emits [1, 0] instead of the insertion order [0, 1]. -/
theorem c1_stability_counterexample :
    compute_score [0] .PDB_SIZE_UP ti_empty [2, 2] [] =
        compute_score [1] .PDB_SIZE_UP ti_empty [2, 2] [] ∧
      (compute_pattern_order [[0], [1]] [0, 1] .PDB_SIZE_UP ti_empty [2, 2] []
          (fun _ => 0) 0).1 = [1, 0] ∧
      (compute_pattern_order [[0], [1]] [0, 1] .PDB_SIZE_UP ti_empty [2, 2] []
          (fun _ => 0) 0).1 ≠ [0, 1] := by
  refine ⟨by decide, by decide, by decide⟩

/-- Claim C1, amended: for every score-based policy the order is first
shuffled by the rng (line 219); under a stable model of std::sort, patterns of
equal score (equal key pair for the two lexicographic composites) then appear
in the shuffled order — reversed for the *_DOWN policies — not in the order the
generator produced them. -/
theorem c1_ties_follow_shuffle (patterns : List (List Nat)) (order : List Nat)
    (t : PatternOrder) (ti : TaskInfo) (domains : List Int)
    (used : List (List Bool)) (draw : Nat → Nat) (ridx : Nat) :
    (is_simple_up_order t = true → ∀ k : Int,
      ((compute_pattern_order patterns order t ti domains used draw
          ridx).1).filter
          (fun i =>
            decide ((scores_for patterns t ti domains used).getD i 0 = k)) =
        ((shuffle draw ridx order).1).filter
          (fun i =>
            decide ((scores_for patterns t ti domains used).getD i 0 = k))) ∧
    (is_down_order t = true → ∀ k : Int,
      ((compute_pattern_order patterns order t ti domains used draw
          ridx).1).filter
          (fun i =>
            decide ((scores_for patterns t ti domains used).getD i 0 = k)) =
        (((shuffle draw ridx order).1).filter
          (fun i =>
            decide ((scores_for patterns t ti domains used).getD i 0
              = k))).reverse) ∧
    (is_composite_order t = true → ∀ k : Lex (Int × Int),
      ((compute_pattern_order patterns order t ti domains used draw
          ridx).1).filter
          (fun i =>
            decide (toLex ((pairs_for patterns t ti domains used).getD i (0, 0))
              = k)) =
        ((shuffle draw ridx order).1).filter
          (fun i =>
            decide (toLex ((pairs_for patterns t ti domains used).getD i (0, 0))
              = k))) := by
  refine ⟨?_, ?_, ?_⟩
  · intro ht k
    cases t <;>
      first
        | exact Bool.noConfusion ht
        | (simp only [compute_pattern_order, is_down_order, reduceCtorEq,
            reduceIte, or_self, or_false, false_or]
           exact filter_sort_by_key
             (fun i => (scores_for patterns _ ti domains used).getD i 0) k _)
  · intro ht k
    cases t <;>
      first
        | exact Bool.noConfusion ht
        | (simp only [compute_pattern_order, is_down_order, reduceCtorEq,
            reduceIte, or_self, or_false, false_or]
           rw [List.filter_reverse]
           exact congrArg List.reverse (filter_sort_by_key
             (fun i => (scores_for patterns _ ti domains used).getD i 0) k _))
  · intro ht k
    cases t <;>
      first
        | exact Bool.noConfusion ht
        | (simp only [compute_pattern_order, is_down_order, reduceCtorEq,
            reduceIte, or_self, or_false, false_or, or_true, true_or]
           exact filter_sort_by_key
             (fun i => toLex ((pairs_for patterns _ ti domains used).getD i
               (0, 0))) k _)

/-- Witness for the amended C1 at the counterexample instance: the tie class
of score 2 follows the shuffled order [1, 0]. -/
theorem c1_ties_follow_shuffle_witness :
    ((compute_pattern_order [[0], [1]] [0, 1] .PDB_SIZE_UP ti_empty [2, 2] []
        (fun _ => 0) 0).1).filter
        (fun i =>
          decide ((scores_for [[0], [1]] .PDB_SIZE_UP ti_empty [2, 2] []).getD
            i 0 = (2 : Int))) =
      ((shuffle (fun _ => 0) 0 [0, 1]).1).filter
        (fun i =>
          decide ((scores_for [[0], [1]] .PDB_SIZE_UP ti_empty [2, 2] []).getD
            i 0 = (2 : Int))) :=
  (c1_ties_follow_shuffle [[0], [1]] [0, 1] .PDB_SIZE_UP ti_empty [2, 2] []
    (fun _ => 0) 0).1 (by decide) 2

end scorpion
